import Mathlib

/-
  Verification development for the dc-bot-what-to-eat repository.

  Shallow embedding of the core data operations of `database.py` and
  `crawler.py`, with theorems checking the natural-language specification
  against the embedded code.
-/

set_option autoImplicit false

namespace WhatToEat

/-! ### Executable models of the Python string primitives

Python `str.lower`, `str.strip`, `str.split(c)` and `int(...)` are modelled
structurally over `List Char` so that every definition computes inside the
kernel. -/

/-- Python `str.lower()` (ASCII case folding is all the repository relies on). -/
def lowerChars (l : List Char) : List Char := l.map Char.toLower

/-- Python `str.strip()`: drop whitespace from both ends. -/
def stripChars (l : List Char) : List Char :=
  ((l.dropWhile Char.isWhitespace).reverse.dropWhile Char.isWhitespace).reverse

/-- Python `str.split(sep)` for a one-character separator: every occurrence
splits, empty pieces are kept. -/
def splitOnChar (c : Char) : List Char → List (List Char)
  | [] => [[]]
  | x :: xs =>
    let r := splitOnChar c xs
    if x = c then [] :: r
    else
      match r with
      | [] => [[x]]
      | y :: ys => (x :: y) :: ys

/-- Decimal digit run to a number; `none` on a non-digit or on the empty list,
where Python `int(...)` raises `ValueError`. -/
def digitsToNat? : List Char → Option Nat
  | [] => none
  | l => go l 0
where
  go : List Char → Nat → Option Nat
    | [], acc => some acc
    | c :: cs, acc =>
      if c.isDigit then go cs (acc * 10 + (c.toNat - 48)) else none

/-- Python `int(s)` on an already-stripped string: an optional leading minus
sign followed by decimal digits (the exotic `int` forms the repository never
feeds it — `+` signs, underscores — are out of scope). -/
def strToInt? : List Char → Option Int
  | '-' :: rest => (digitsToNat? rest).map (fun n => -(n : Int))
  | l => (digitsToNat? l).map (fun n => (n : Int))

/-! ## database.py : RestaurantDB.is_open_at_time

`is_open_at_time(opening_hours, target_dt, timezone_str)` first localizes
`target_dt` with pytz and then only uses `localized_dt.weekday()`,
`localized_dt.hour` and `localized_dt.minute`.  We embed the localized
instant directly as those three components; the pytz localization itself is
external library code. -/

/-- The localized target instant: Python `datetime.weekday()` is 0 = Monday
through 6 = Sunday, together with the hour and minute of day. -/
structure LocalDT where
  weekday : Fin 7
  hour : Nat
  minute : Nat
deriving DecidableEq

/-- The list `weekdays` from `database.py` line 87. -/
def weekdays : List String :=
  ["monday", "tuesday", "wednesday", "thursday", "friday", "saturday", "sunday"]

/-- `weekdays[localized_dt.weekday()]` (line 88). -/
def weekdayName (w : Fin 7) : String := weekdays.getD w.val ""

/-- Lines 94-97 for one half of the range: `map(int, part.strip().split(':'))`
unpacked into exactly two ints, combined as `h * 60 + m` minutes since
midnight.  `none` models the `ValueError` path. -/
def parseHM (s : List Char) : Option Int :=
  match splitOnChar ':' (stripChars s) with
  | [h, m] =>
    match strToInt? (stripChars h), strToInt? (stripChars m) with
    | some hv, some mv => some (hv * 60 + mv)
    | _, _ => none
  | _ => none

/-- Lines 93-98: `hours_str.split('-')` unpacked into exactly two parts, each
parsed to minutes since midnight; `none` models the `ValueError` path. -/
def parseRange (hs : List Char) : Option (Int × Int) :=
  match splitOnChar '-' hs with
  | [a, b] =>
    match parseHM a, parseHM b with
    | some o, some c => some (o, c)
    | _, _ => none
  | _ => none

/-- `RestaurantDB.is_open_at_time` (database.py lines 82-104), after the pytz
localization step.  `opening_hours` is the Python dict embedded as an
association list (`dict.get` = first-match lookup).  A missing key and an
empty string both take the `if not hours_str` branch of line 90. -/
def is_open_at_time (opening_hours : List (String × String)) (t : LocalDT) : Bool :=
  if opening_hours.isEmpty then true
  else
    match List.lookup (weekdayName t.weekday) opening_hours with
    | none => false
    | some hs =>
      let hsl := lowerChars hs.data
      if hs.data.isEmpty then false
      else if hsl = "closed".data ∨ hsl = "休息".data then false
      else if hsl = "open 24 hours".data ∨ hsl = "24小时营业".data ∨
              hsl = "00:00-24:00".data then true
      else
        match parseRange hs.data with
        | none => true
        | some (o, c) =>
          let cur : Int := (t.hour : Int) * 60 + (t.minute : Int)
          if c < o then decide (cur ≥ o) || decide (cur < c)
          else decide (o ≤ cur) && decide (cur < c)


/-! ## database.py : RestaurantDB.find_restaurants

Lines 132-153.  The Mongo query/fetch step yields the candidate list; we
take it as the input.  `random.sample(open_restaurants, count)` is a call to
an external PRNG: we embed its result as an explicit parameter `sample`,
constrained in the theorems exactly by `random.sample`'s documented contract
(a list of `count` elements chosen from distinct positions of the
population, i.e. a sub-permutation of it).  The trailing `_id`
stringification (lines 150-151) only rewrites the internal row id of each
selected record and is identity on this record model. -/

/-- A stored record as `find_restaurants` consumes it:
`r.get('opening_hours', {})` is the only field the claims inspect. -/
structure StoredRecord where
  google_place_id : String
  opening_hours : List (String × String)
deriving DecidableEq

/-- Lines 140-143: the open subset of the fetched candidates. -/
def openRestaurants (candidates : List StoredRecord) (target_time : LocalDT) :
    List StoredRecord :=
  candidates.filter (fun r => is_open_at_time r.opening_hours target_time)

/-- Lines 145-153: sample when the open subset is larger than `count`,
otherwise return the whole open subset. -/
def find_restaurants (candidates : List StoredRecord) (target_time : LocalDT)
    (count : Nat) (sample : List StoredRecord) : List StoredRecord :=
  let opens := openRestaurants candidates target_time
  if count < opens.length then sample else opens

/-! ## database.py : RestaurantDB.add_or_update_restaurant

Lines 45-62.  A Mongo document is a finite map from field names to values;
the store is the list of documents in the collection.  `update_one` with
`upsert=True` updates the first document matching the filter with `$set`,
or inserts a fresh document built from the filter equality plus the `$set`
fields when nothing matches. -/

/-- The BSON values the embedded documents need. -/
inductive BVal where
  | str : String → BVal
  | num : Int → BVal
  | time : Nat → BVal
deriving DecidableEq

/-- A Mongo document: field name to value, missing fields are `none`. -/
def Document : Type := String → Option BVal

/-- Python `doc[k] = v` / one `$set` field. -/
def setField (d : Document) (k : String) (v : BVal) : Document :=
  fun k' => if k' = k then some v else d k'

/-- Mongo `$set` with update document `data`: fields present in `data`
overwrite, all others are kept. -/
def applySet (d : Document) (data : Document) : Document :=
  fun k =>
    match data k with
    | some v => some v
    | none => d k

/-- `update_one({'google_place_id': pid}, {'$set': data}, upsert=True)` on the
collection contents: `$set` on the first matching document, else insert (the
inserted document is the `$set` fields, which already carry the key). -/
def updateOneUpsert : List Document → BVal → Document → List Document
  | [], _, data => [data]
  | d :: rest, pid, data =>
    if d "google_place_id" = some pid then applySet d data :: rest
    else d :: updateOneUpsert rest pid data

/-- `RestaurantDB.add_or_update_restaurant` (lines 45-62): `ValueError` when
the key field is missing, else stamp `last_updated` with the current time and
upsert keyed by `google_place_id`. -/
def add_or_update_restaurant (store : List Document) (restaurant_data : Document)
    (now : Nat) : Except String (List Document) :=
  match restaurant_data "google_place_id" with
  | none => .error "missing google_place_id"
  | some pid =>
    .ok (updateOneUpsert store pid (setField restaurant_data "last_updated" (.time now)))

/-- Number of stored documents keyed by `pid` (the unique sparse index on
`google_place_id` keeps this at most 1 in the real collection). -/
def countPid (store : List Document) (pid : BVal) : Nat :=
  (store.filter (fun d => decide (d "google_place_id" = some pid))).length

/-! ## crawler.py : GoogleMapsCrawler.crawl_area, discovery loop

Lines 176-224.  The provider is embedded as the sequence of pages it would
serve: each fetch consumes the head, and a `next_page_token` exists exactly
when further pages remain.  The Python accumulator `all_place_ids` is a set;
we keep it as a duplicate-free list so that the arbitrary iteration order of
`list(current_page_ids)[:remaining_slots]` is resolved by the page's own
order (`List.dedup` plays the role of building the per-page id set).
The inner `if remaining_slots <= 0: break` (line 218) is unreachable: the
loop-top guard of line 203 already ensures `len(all_place_ids) < max_results`
on that path, so `remaining_slots >= 1`. -/

/-- One iteration state step of the `while True` pagination loop of
`crawl_area`: arguments are the remaining provider pages, `current_page` and
the accumulated `all_place_ids`; the result is the final accumulator together
with the final `current_page`. -/
def crawlPagesLoop (max_results start_page : Nat) (end_page : Int) :
    List (List String) → Nat → List String → List String × Nat
  | [], currentPage, acc => (acc, currentPage)
  | p :: rest, currentPage, acc =>
    if currentPage < start_page then
      if rest.isEmpty then (acc, currentPage)
      else crawlPagesLoop max_results start_page end_page rest (currentPage + 1) acc
    else if end_page ≠ -1 ∧ end_page < (currentPage : Int) then (acc, currentPage)
    else if 0 < max_results ∧ max_results ≤ acc.length then (acc, currentPage)
    else
      let pageIds := p.dedup
      let pageIds2 :=
        if 0 < max_results then pageIds.take (max_results - acc.length) else pageIds
      let acc2 := acc ++ pageIds2.filter (fun x => decide (¬ x ∈ acc))
      if rest.isEmpty then (acc2, currentPage)
      else crawlPagesLoop max_results start_page end_page rest (currentPage + 1) acc2

/-- The discovery phase of `crawl_area` started as the code starts it:
`current_page = 1`, empty accumulator. -/
def discoverPlaceIds (max_results start_page : Nat) (end_page : Int)
    (pages : List (List String)) : List String × Nat :=
  crawlPagesLoop max_results start_page end_page pages 1 []

/-! ## crawler.py : crawl_area dedup step (lines 230-249)

The store's contents are abstracted to the set `existing` of
`google_place_id` values it holds; the batched
`find({'google_place_id': {'$in': place_ids_list}})` query then yields
exactly the ids of `place_ids_list` that lie in `existing`. -/

/-- Lines 234-249: under `force_update` process everything and report zero
existing; otherwise one batched existence query, set difference, and the
count of already-present ids.  Returns `(place_ids_to_process, num_existing)`. -/
def dedupFilter (place_ids_list : List String) (existing : Finset String)
    (force_update : Bool) : List String × Nat :=
  if force_update then (place_ids_list, 0)
  else
    let existing_place_ids : Finset String :=
      (place_ids_list.filter (fun p => decide (p ∈ existing))).toFinset
    (place_ids_list.filter (fun p => decide (¬ p ∈ existing_place_ids)),
      existing_place_ids.card)

/-! ## crawler.py : GoogleMapsCrawler._process_place and the outcome counts -/

/-- The four values of the `status` field `_process_place` can return
(lines 119, 123, 154, 157). -/
inductive ProcessStatus where
  | api_error : ProcessStatus
  | skipped : ProcessStatus
  | success : String → ProcessStatus
  | db_error : ProcessStatus
deriving DecidableEq

/-- Line 262: `r.get('status') == 'success'`. -/
def isSuccess : ProcessStatus → Bool
  | .success _ => true
  | _ => false

/-- Line 263: `r.get('status') == 'skipped'`. -/
def isSkipped : ProcessStatus → Bool
  | .skipped => true
  | _ => false

/-- Line 262: `success_count`. -/
def successCount (results : List ProcessStatus) : Nat :=
  (results.filter isSuccess).length

/-- Line 263: `skipped_count`. -/
def skippedCount (results : List ProcessStatus) : Nat :=
  (results.filter isSkipped).length

/-- Line 264: `error_count = len(results) - success_count - skipped_count`. -/
def errorCount (results : List ProcessStatus) : Nat :=
  results.length - successCount results - skippedCount results

/-! ## crawler.py : _structure_with_llm and _process_place (lines 91-157)

The Google detail record and the classifier are external collaborators.  The
detail fetch of lines 111-119 is embedded as `Except Unit PlaceDetails`
(`error` = the caught Place-Details exception); the classifier call together
with `json.loads` is embedded as `Except Unit StructuredData` (`error` = any
exception inside the `try` of lines 98-105: API failure or unparsable JSON).
Coordinates and ratings are IEEE floats in Python; no arithmetic is ever
performed on them, so they are carried as exact rationals. -/

/-- The fields of the Place-Details response that `_process_place` reads. -/
structure PlaceDetails where
  place_id : String
  name : String
  formatted_address : Option String
  lat : ℚ
  lng : ℚ
  url : Option String
  photo : List String
  weekday_text : List String
deriving DecidableEq

/-- The classifier's parsed JSON output.  `is_restaurant` is the truthiness
of `structured_data.get("is_restaurant")` (an absent key is falsy, line 121);
the remaining fields model `.get(...)` with their defaults of
lines 125-130. -/
structure StructuredData where
  is_restaurant : Bool
  name : Option String
  rating : Option ℚ
  user_ratings_total : Option Int
  price_range : Option String
  cuisine_type : Option (List String)
  tags : Option (List String)
deriving DecidableEq

/-- `_structure_with_llm` (lines 91-108): any exception degrades to
`{"is_restaurant": False}`. -/
def structure_with_llm (llm_response : Except Unit StructuredData) : StructuredData :=
  match llm_response with
  | .ok sd => sd
  | .error _ =>
    { is_restaurant := false, name := none, rating := none, user_ratings_total := none
      price_range := none, cuisine_type := none, tags := none }

/-- The `location` value of line 127. -/
structure GeoPoint where
  type : String
  coordinates : List ℚ
deriving DecidableEq

/-- The `final_doc` of lines 124-150. -/
structure FinalDoc where
  google_place_id : String
  name : String
  address : Option String
  location : GeoPoint
  rating : Option ℚ
  user_ratings_total : Option Int
  price_range : Option String
  cuisine_type : List String
  tags : List String
  google_maps_url : Option String
  opening_hours : List (String × String)
  image_url : Option String
deriving DecidableEq

/-- The `weekday_mapping` dict of lines 137-142. -/
def weekday_mapping : List (String × String) :=
  [("星期一", "monday"), ("星期二", "tuesday"), ("星期三", "wednesday"),
   ("星期四", "thursday"), ("星期五", "friday"), ("星期六", "saturday"),
   ("星期日", "sunday"), ("Monday", "monday"), ("Tuesday", "tuesday"),
   ("Wednesday", "wednesday"), ("Thursday", "thursday"), ("Friday", "friday"),
   ("Saturday", "saturday"), ("Sunday", "sunday")]

/-- Python `line.split(': ', 1)` preceded by the `': ' in line` test: split at
the first occurrence of `": "`, `none` when absent. -/
def splitOnceColonSpace : List Char → Option (List Char × List Char)
  | [] => none
  | ':' :: ' ' :: rest => some ([], rest)
  | c :: rest => (splitOnceColonSpace rest).map (fun p => (c :: p.1, p.2))

/-- Line 148: the three `.replace` normalizations of an hours string,
followed by the `.strip()` of line 149. -/
def normalizeHours (hours : String) : String :=
  ((((hours.replace "24 小时营业" "00:00-24:00").replace "休息" "Closed").replace
      "Open 24 hours" "00:00-24:00").trim)

/-- Python dict assignment `hours_map[day_en] = v` on the association-list
embedding. -/
def assocSet (m : List (String × String)) (k v : String) : List (String × String) :=
  if (List.lookup k m).isSome then
    m.map (fun kv => if kv.1 = k then (k, v) else kv)
  else m ++ [(k, v)]

/-- Lines 135-150: fold the `weekday_text` lines into the normalized
`hours_map` (an empty `weekday_text` leaves the initial `{}`, matching the
truthiness guard of line 135). -/
def buildHoursMap (weekday_text : List String) : List (String × String) :=
  weekday_text.foldl
    (fun hm line =>
      match splitOnceColonSpace line.data with
      | none => hm
      | some (day, hours) =>
        match List.lookup (String.mk day) weekday_mapping with
        | none => hm
        | some day_en => assocSet hm day_en (normalizeHours (String.mk hours)))
    []

/-- The `final_doc` construction of lines 124-150. -/
def buildFinalDoc (place_details : PlaceDetails) (structured_data : StructuredData)
    (gmaps_key : String) : FinalDoc :=
  { google_place_id := place_details.place_id
    name := structured_data.name.getD place_details.name
    address := place_details.formatted_address
    location := { type := "Point", coordinates := [place_details.lng, place_details.lat] }
    rating := structured_data.rating
    user_ratings_total := structured_data.user_ratings_total
    price_range := structured_data.price_range
    cuisine_type := structured_data.cuisine_type.getD []
    tags := structured_data.tags.getD []
    google_maps_url := place_details.url
    opening_hours := buildHoursMap place_details.weekday_text
    image_url := place_details.photo.head?.map
      (fun photo_ref =>
        "https://maps.googleapis.com/maps/api/place/photo?maxwidth=400&photoreference="
          ++ photo_ref ++ "&key=" ++ gmaps_key) }

/-- `_process_place` (lines 109-157).  `db_ok` resolves whether the
`add_or_update_restaurant` call of line 152 raises; the returned `Option
FinalDoc` is the document handed to the store on success (`none` where
nothing is persisted). -/
def process_place (detail : Except Unit PlaceDetails)
    (llm_response : Except Unit StructuredData) (db_ok : Bool)
    (gmaps_key : String) : ProcessStatus × Option FinalDoc :=
  match detail with
  | .error _ => (.api_error, none)
  | .ok place_details =>
    let structured_data := structure_with_llm llm_response
    if ¬ structured_data.is_restaurant then (.skipped, none)
    else
      let final_doc := buildFinalDoc place_details structured_data gmaps_key
      if db_ok then (.success final_doc.name, some final_doc)
      else (.db_error, none)

/-! ### Concrete sample data used to instantiate the theorems -/

/-- A stored record that is always open (empty opening-hours map). -/
def recA : StoredRecord := { google_place_id := "p1", opening_hours := [] }

/-- A second always-open stored record. -/
def recB : StoredRecord := { google_place_id := "p2", opening_hours := [] }

/-- A concrete restaurant document as handed to `add_or_update_restaurant`. -/
def dataC5 : Document := fun k =>
  if k = "google_place_id" then some (.str "p1")
  else if k = "name" then some (.str "A Restaurant") else none

/-! ## Theorems -/

/-- C10: a record whose opening-hours map is entirely empty is classified as
open by `is_open_at_time`, whatever the (localized) weekday and time of day
(database.py line 84). -/
theorem C10_empty_hours_always_open (t : LocalDT) :
    is_open_at_time [] t = true := rfl

/-- C1, counterexample: a record whose opening-hours map has an entry only
for monday, evaluated at a Tuesday noon, is classified as CLOSED by
`is_open_at_time` — the claim asserts the missing weekday is fail-open, but
line 90 of database.py (`if not hours_str ... return False`) fails closed. -/
theorem C1_counterexample_missing_weekday :
    is_open_at_time [("monday", "10:00-22:00")] ⟨1, 12, 0⟩ = false := by decide

/-- C1, amended: if the (localized) target weekday is absent from a record's
NON-empty opening-hours map, `is_open_at_time` classifies the record as
closed (fail-closed), so it IS filtered out of the matching results; the
fail-open outcome only applies to an entirely empty map or to an unparsable
present value. -/
theorem C1_missing_weekday_fail_closed (oh : List (String × String)) (t : LocalDT)
    (hne : oh ≠ [])
    (habs : List.lookup (weekdayName t.weekday) oh = none) :
    is_open_at_time oh t = false := by
  have hemp : oh.isEmpty = false := by
    cases oh with
    | nil => exact absurd rfl hne
    | cons a l => rfl
  simp [is_open_at_time, hemp, habs]

/-- C1, witness for the amended theorem at a concrete input. -/
theorem C1_missing_weekday_fail_closed_witness :
    ([("monday", "10:00-22:00")] : List (String × String)) ≠ [] ∧
    List.lookup (weekdayName (1 : Fin 7)) [("monday", "10:00-22:00")] = none ∧
    is_open_at_time [("monday", "10:00-22:00")] ⟨1, 30, 0⟩ = false :=
  ⟨by decide, by decide,
    C1_missing_weekday_fail_closed [("monday", "10:00-22:00")] ⟨1, 30, 0⟩
      (by decide) (by decide)⟩

/-- C2: for an opening-hours value that reaches the `"HH:MM-HH:MM"` parse of
lines 92-102 (present, non-empty, not a closed or 24-hour marker, parses to
open/close minutes `o`/`c`), the record is open at the localized time
`t` iff: when `c < o` (midnight wraparound) the current minutes are `≥ o` or
`< c`; otherwise `o ≤ current < c` — inclusive open bound, exclusive close
bound. -/
theorem C2_hours_range_evaluation (oh : List (String × String)) (t : LocalDT)
    (hs : String) (o c : Int)
    (hne : oh ≠ [])
    (hlk : List.lookup (weekdayName t.weekday) oh = some hs)
    (hnempty : hs.data ≠ [])
    (hncl : lowerChars hs.data ≠ "closed".data ∧ lowerChars hs.data ≠ "休息".data)
    (hn24 : lowerChars hs.data ≠ "open 24 hours".data ∧
            lowerChars hs.data ≠ "24小时营业".data ∧
            lowerChars hs.data ≠ "00:00-24:00".data)
    (hp : parseRange hs.data = some (o, c)) :
    (is_open_at_time oh t = true ↔
      (if c < o then
        o ≤ (t.hour : Int) * 60 + (t.minute : Int) ∨ (t.hour : Int) * 60 + (t.minute : Int) < c
      else
        o ≤ (t.hour : Int) * 60 + (t.minute : Int) ∧ (t.hour : Int) * 60 + (t.minute : Int) < c)) := by
  have hemp : oh.isEmpty = false := by
    cases oh with
    | nil => exact absurd rfl hne
    | cons a l => rfl
  have hnempty' : hs.data.isEmpty = false := by
    cases h : hs.data with
    | nil => exact absurd h hnempty
    | cons a l => rfl
  rw [is_open_at_time]
  simp only [hemp, Bool.false_eq_true, if_false, hlk, hnempty', hncl.1, hncl.2,
    hn24.1, hn24.2.1, hn24.2.2, hp]
  by_cases hoc : c < o
  · simp [hoc, ge_iff_le]
  · simp [hoc]

/-- C2, witness: the wraparound record `monday 22:00-02:00` evaluated at a
Monday 23:30. -/
theorem C2_hours_range_evaluation_witness :
    List.lookup (weekdayName (0 : Fin 7)) [("monday", "22:00-02:00")] =
      some "22:00-02:00" ∧
    parseRange "22:00-02:00".data = some (1320, 120) ∧
    (is_open_at_time [("monday", "22:00-02:00")] ⟨0, 23, 30⟩ = true ↔
      (if (120 : Int) < 1320 then
        (1320 : Int) ≤ ((23 : Nat) : Int) * 60 + ((30 : Nat) : Int) ∨
          ((23 : Nat) : Int) * 60 + ((30 : Nat) : Int) < 120
      else
        (1320 : Int) ≤ ((23 : Nat) : Int) * 60 + ((30 : Nat) : Int) ∧
          ((23 : Nat) : Int) * 60 + ((30 : Nat) : Int) < 120)) :=
  ⟨by decide, by decide,
    C2_hours_range_evaluation [("monday", "22:00-02:00")] ⟨0, 23, 30⟩
      "22:00-02:00" 1320 120 (by decide) (by decide) (by decide)
      ⟨by decide, by decide⟩ ⟨by decide, by decide, by decide⟩ (by decide)⟩

/-- C8: every document the pipeline builds for persistence stores its geo
point with longitude at index 0 and latitude at index 1 of
`location.coordinates` (crawler.py line 127). -/
theorem C8_coordinates_order (place_details : PlaceDetails)
    (structured_data : StructuredData) (gmaps_key : String) :
    (buildFinalDoc place_details structured_data gmaps_key).location.coordinates =
      [place_details.lng, place_details.lat] := rfl

/-- C9: when the detail fetch succeeds and the classifier call fails (API
error or unparsable output), `_process_place` degrades to the negative
classification: the outcome is `skipped`, not an error status, and no
document is handed to the store (crawler.py lines 106-108 and 121-123). -/
theorem C9_classifier_failure_skipped (place_details : PlaceDetails)
    (db_ok : Bool) (gmaps_key : String) :
    process_place (.ok place_details) (.error ()) db_ok gmaps_key =
      (.skipped, none) := rfl

/-- Helper: the success and skipped buckets are disjoint, so their counts
never exceed the number of results. -/
theorem successCount_add_skippedCount_le (results : List ProcessStatus) :
    successCount results + skippedCount results ≤ results.length := by
  induction results with
  | nil => simp [successCount, skippedCount]
  | cons r rest ih =>
    simp only [successCount, skippedCount] at ih ⊢
    cases r <;> simp [List.filter_cons, isSuccess, isSkipped] <;> omega

/-- C6: every id submitted to the concurrent processing phase yields exactly
one outcome, and the three summary buckets partition them:
`succeeded + skipped_non_poi + errors = to_process` (crawler.py
lines 260-272, where `error_count = len(results) - success - skipped`). -/
theorem C6_outcome_partition (place_ids_to_process : List String)
    (outcome : String → ProcessStatus) :
    successCount (place_ids_to_process.map outcome) +
      skippedCount (place_ids_to_process.map outcome) +
      errorCount (place_ids_to_process.map outcome) =
      place_ids_to_process.length := by
  have h := successCount_add_skippedCount_le (place_ids_to_process.map outcome)
  have hlen : (place_ids_to_process.map outcome).length = place_ids_to_process.length :=
    List.length_map _ _
  unfold errorCount
  omega

/-- C3: `find_restaurants` returns at most `count` records: when the open
subset exceeds `count` it returns the `random.sample` draw — `count` records
taken without replacement from the open subset (a sub-permutation) — and
otherwise it returns the whole open subset unchanged, with no padding and no
duplication (database.py lines 145-153). -/
theorem C3_sampling_bound (candidates : List StoredRecord) (target_time : LocalDT)
    (count : Nat) (sample : List StoredRecord)
    (hsample : count < (openRestaurants candidates target_time).length →
      sample.Subperm (openRestaurants candidates target_time) ∧
        sample.length = count) :
    (find_restaurants candidates target_time count sample).length ≤ count ∧
    (find_restaurants candidates target_time count sample).Subperm
      (openRestaurants candidates target_time) ∧
    ((openRestaurants candidates target_time).length ≤ count →
      find_restaurants candidates target_time count sample =
        openRestaurants candidates target_time) := by
  have heq : find_restaurants candidates target_time count sample =
      if count < (openRestaurants candidates target_time).length then sample
      else openRestaurants candidates target_time := rfl
  rw [heq]
  by_cases h : count < (openRestaurants candidates target_time).length
  · obtain ⟨h1, h2⟩ := hsample h
    rw [if_pos h]
    exact ⟨le_of_eq h2, h1, fun hle => absurd h (not_lt.mpr hle)⟩
  · rw [if_neg h]
    exact ⟨not_lt.mp h, List.Subperm.refl _, fun _ => rfl⟩

/-- C3, witness: two always-open candidates, `count = 1`, the sampler
drawing the first record. -/
theorem C3_sampling_bound_witness :
    (find_restaurants [recA, recB] ⟨0, 12, 0⟩ 1 [recA]).length ≤ 1 ∧
    (find_restaurants [recA, recB] ⟨0, 12, 0⟩ 1 [recA]).Subperm
      (openRestaurants [recA, recB] ⟨0, 12, 0⟩) ∧
    ((openRestaurants [recA, recB] ⟨0, 12, 0⟩).length ≤ 1 →
      find_restaurants [recA, recB] ⟨0, 12, 0⟩ 1 [recA] =
        openRestaurants [recA, recB] ⟨0, 12, 0⟩) :=
  C3_sampling_bound [recA, recB] ⟨0, 12, 0⟩ 1 [recA]
    (fun _ => ⟨by
        have hsub : List.Sublist [recA] [recA, recB] :=
          (List.nil_sublist [recB]).cons₂ recA
        have hopen : openRestaurants [recA, recB] ⟨0, 12, 0⟩ = [recA, recB] := rfl
        rw [hopen]
        exact hsub.subperm, rfl⟩)

/-- C4: the dedup step of `crawl_area` (crawler.py lines 230-249): with
`force_update` the whole discovered list is processed and `already_exists`
is reported as 0; without it, the processed ids are exactly the discovered
set minus the store's existing set, and `already_exists` counts the
discovered ids already present in the store. -/
theorem C4_dedup_set_difference (place_ids_list : List String)
    (existing : Finset String) :
    dedupFilter place_ids_list existing true = (place_ids_list, 0) ∧
    (dedupFilter place_ids_list existing false).1.toFinset =
      place_ids_list.toFinset \ existing ∧
    (dedupFilter place_ids_list existing false).2 =
      (place_ids_list.toFinset ∩ existing).card := by
  refine ⟨rfl, ?_, ?_⟩
  · ext x
    simp only [dedupFilter, if_false, Bool.false_eq_true, List.mem_toFinset,
      List.mem_filter, decide_eq_true_eq, Finset.mem_sdiff]
    constructor
    · rintro ⟨hx, hnot⟩
      exact ⟨hx, fun hE => hnot ⟨hx, hE⟩⟩
    · rintro ⟨hx, hnE⟩
      exact ⟨hx, fun hc => hnE hc.2⟩
  · have hset : (place_ids_list.filter (fun p => decide (p ∈ existing))).toFinset =
        place_ids_list.toFinset ∩ existing := by
      ext x
      simp [List.mem_filter]
    simp only [dedupFilter, if_false, Bool.false_eq_true]
    rw [hset]

/-- Helper: `countPid` on a cons. -/
theorem countPid_cons (d : Document) (rest : List Document) (pid : BVal) :
    countPid (d :: rest) pid =
      (if d "google_place_id" = some pid then 1 else 0) + countPid rest pid := by
  by_cases h : d "google_place_id" = some pid
  · simp [countPid, List.filter_cons, h, Nat.add_comm]
  · simp [countPid, List.filter_cons, h]

/-- Helper: a store with no document keyed by `pid` has no member carrying
that key. -/
theorem countPid_eq_zero_not_mem (store : List Document) (pid : BVal)
    (h : countPid store pid = 0) :
    ∀ d ∈ store, ¬ d "google_place_id" = some pid := by
  induction store with
  | nil => intro d hd; cases hd
  | cons a rest ih =>
    rw [countPid_cons] at h
    intro d hd
    rcases List.mem_cons.mp hd with hda | hdr
    · subst hda
      intro hk
      rw [if_pos hk] at h
      omega
    · refine ih ?_ d hdr
      omega

/-- Helper: the stamped update document keeps the key field. -/
theorem setField_keeps_key (data : Document) (v : BVal) :
    (setField data "last_updated" v) "google_place_id" = data "google_place_id" := by
  simp [setField]

/-- Helper: upserting a document carrying key `pid` leaves exactly one
document with that key when the unique-index invariant (at most one) held
before. -/
theorem countPid_updateOneUpsert (store : List Document) (pid : BVal)
    (data : Document) (hd : data "google_place_id" = some pid)
    (huniq : countPid store pid ≤ 1) :
    countPid (updateOneUpsert store pid data) pid = 1 := by
  induction store with
  | nil =>
    simp [updateOneUpsert, countPid_cons, countPid, hd]
  | cons a rest ih =>
    rw [countPid_cons] at huniq
    by_cases ha : a "google_place_id" = some pid
    · rw [if_pos ha] at huniq
      have hrest : countPid rest pid = 0 := by omega
      have happ : (applySet a data) "google_place_id" = some pid := by
        simp [applySet, hd]
      simp [updateOneUpsert, ha, countPid_cons, happ, hrest]
    · rw [if_neg ha] at huniq
      have := ih (by omega)
      simp [updateOneUpsert, ha, countPid_cons, this]

/-- Helper: after the upsert, every stored document carrying key `pid`
holds every field the update document sets. -/
theorem updateOneUpsert_fields (store : List Document) (pid : BVal)
    (data : Document) (hd : data "google_place_id" = some pid)
    (huniq : countPid store pid ≤ 1) :
    ∀ d ∈ updateOneUpsert store pid data, d "google_place_id" = some pid →
      ∀ k v, data k = some v → d k = some v := by
  induction store with
  | nil =>
    intro d hdm hdk k v hkv
    rcases List.mem_singleton.mp hdm with rfl
    exact hkv
  | cons a rest ih =>
    rw [countPid_cons] at huniq
    intro d hdm hdk k v hkv
    by_cases ha : a "google_place_id" = some pid
    · rw [if_pos ha] at huniq
      have hrest : countPid rest pid = 0 := by omega
      simp only [updateOneUpsert, ha, if_pos] at hdm
      rcases List.mem_cons.mp hdm with rfl | hdr
      · simp [applySet, hkv]
      · exact absurd hdk (countPid_eq_zero_not_mem rest pid hrest d hdr)
    · rw [if_neg ha] at huniq
      simp only [updateOneUpsert, ha, if_neg, if_false] at hdm
      rcases List.mem_cons.mp hdm with rfl | hdr
      · exact absurd hdk ha
      · exact ih (by omega) d hdr hdk k v hkv

/-- C5: the upsert is idempotent and keyed by `google_place_id`
(database.py lines 45-62): calling `add_or_update_restaurant` twice with the
same record data (at times `t1` then `t2`) on a store satisfying the
unique-index invariant succeeds both times, leaves exactly one stored
document with that key, and that document holds all the record's fields with
its `last_updated` refreshed to the latest call. -/
theorem C5_upsert_idempotent (store : List Document) (data : Document) (pid : BVal)
    (t1 t2 : Nat)
    (hpid : data "google_place_id" = some pid)
    (huniq : countPid store pid ≤ 1) :
    ∃ s1 s2,
      add_or_update_restaurant store data t1 = .ok s1 ∧
      add_or_update_restaurant s1 data t2 = .ok s2 ∧
      countPid s2 pid = 1 ∧
      ∀ d ∈ s2, d "google_place_id" = some pid →
        d "last_updated" = some (.time t2) ∧
        ∀ k v, k ≠ "last_updated" → data k = some v → d k = some v := by
  have hd1 : (setField data "last_updated" (.time t1)) "google_place_id" = some pid := by
    rw [setField_keeps_key]; exact hpid
  have hd2 : (setField data "last_updated" (.time t2)) "google_place_id" = some pid := by
    rw [setField_keeps_key]; exact hpid
  refine ⟨updateOneUpsert store pid (setField data "last_updated" (.time t1)),
    updateOneUpsert (updateOneUpsert store pid (setField data "last_updated" (.time t1)))
      pid (setField data "last_updated" (.time t2)), ?_, ?_, ?_, ?_⟩
  · simp [add_or_update_restaurant, hpid]
  · simp [add_or_update_restaurant, hpid]
  · exact countPid_updateOneUpsert _ pid _ hd2
      (le_of_eq (countPid_updateOneUpsert store pid _ hd1 huniq))
  · intro d hdm hdk
    have hfields := updateOneUpsert_fields _ pid _ hd2
      (le_of_eq (countPid_updateOneUpsert store pid _ hd1 huniq)) d hdm hdk
    constructor
    · exact hfields "last_updated" (.time t2) (by simp [setField])
    · intro k v hk hkv
      exact hfields k v (by simp [setField, hk, hkv])

/-- C5, witness: upserting `dataC5` twice into an empty store. -/
theorem C5_upsert_idempotent_witness :
    dataC5 "google_place_id" = some (.str "p1") ∧
    countPid [] (.str "p1") ≤ 1 ∧
    ∃ s1 s2,
      add_or_update_restaurant [] dataC5 5 = .ok s1 ∧
      add_or_update_restaurant s1 dataC5 9 = .ok s2 ∧
      countPid s2 (.str "p1") = 1 ∧
      ∀ d ∈ s2, d "google_place_id" = some (.str "p1") →
        d "last_updated" = some (.time 9) ∧
        ∀ k v, k ≠ "last_updated" → dataC5 k = some v → d k = some v :=
  ⟨by decide, by decide, C5_upsert_idempotent [] dataC5 (.str "p1") 5 9
    (by decide) (by decide)⟩

/-- Helper: one processing iteration of the pagination loop, on the
non-skip path with the cap not yet reached: the page's deduplicated ids are
truncated to the remaining slots, the new ids are appended, and the loop
either stops (no continuation token) or proceeds to the next page. -/
theorem crawlPagesLoop_process_step (max_results start_page : Nat) (p : List String)
    (rest : List (List String)) (currentPage : Nat) (acc : List String)
    (h1 : ¬ currentPage < start_page) (hmax : 0 < max_results)
    (hacc : acc.length < max_results) :
    crawlPagesLoop max_results start_page (-1) (p :: rest) currentPage acc =
      (if rest.isEmpty
       then (acc ++ (p.dedup.take (max_results - acc.length)).filter
          (fun x => decide (¬ x ∈ acc)), currentPage)
       else crawlPagesLoop max_results start_page (-1) rest (currentPage + 1)
          (acc ++ (p.dedup.take (max_results - acc.length)).filter
            (fun x => decide (¬ x ∈ acc)))) := by
  have h3 : ¬ max_results ≤ acc.length := Nat.not_le.mpr hacc
  simp only [crawlPagesLoop, h1, h3, hmax, if_false, if_true, and_false, and_true,
    true_and, false_and, ne_eq, not_true, not_false_iff, ite_false, ite_true]

/-- Helper: once the accumulated id set has reached the cap, the loop breaks
at the top of the next iteration without touching the accumulator: no
further page contributes. -/
theorem crawlPagesLoop_cap_reached (max_results start_page : Nat)
    (rest : List (List String)) (currentPage : Nat) (acc : List String)
    (h1 : ¬ currentPage < start_page) (hmax : 0 < max_results)
    (hcap : max_results ≤ acc.length) :
    (crawlPagesLoop max_results start_page (-1) rest currentPage acc).1 = acc := by
  cases rest with
  | nil => rfl
  | cons q rest2 =>
    simp only [crawlPagesLoop, h1, hmax, hcap, if_false, true_and, and_true, ne_eq]
    simp

/-- C7: during discovery with a positive cap `max_results`, starting an
in-window iteration (`start_page ≤ current_page`, no end page) whose
accumulated set is still below the cap, on a page of fresh ids large enough
to reach the cap: exactly the remaining slots are taken from the page (its
contribution is truncated, not discarded), the accumulated ids number
exactly `max_results`, and the result does not depend on any later page —
discovery stops once the cap is reached (crawler.py lines 202-224). -/
theorem C7_pagination_truncation (max_results start_page currentPage : Nat)
    (acc p : List String) (rest : List (List String))
    (hmax : 0 < max_results) (hstart : start_page ≤ currentPage)
    (hacc : acc.length < max_results)
    (hdisj : ∀ x ∈ p, ¬ x ∈ acc)
    (hfill : max_results ≤ acc.length + p.dedup.length) :
    (crawlPagesLoop max_results start_page (-1) (p :: rest) currentPage acc).1 =
      acc ++ p.dedup.take (max_results - acc.length) ∧
    (crawlPagesLoop max_results start_page (-1) (p :: rest) currentPage acc).1.length =
      max_results := by
  have h1 : ¬ currentPage < start_page := Nat.not_lt.mpr hstart
  have hfilter : (p.dedup.take (max_results - acc.length)).filter
      (fun x => decide (¬ x ∈ acc)) = p.dedup.take (max_results - acc.length) := by
    apply List.filter_eq_self.mpr
    intro a ha
    have hp : a ∈ p := List.mem_dedup.mp (List.take_subset _ _ ha)
    simp [hdisj a hp]
  have hlen : (acc ++ p.dedup.take (max_results - acc.length)).length = max_results := by
    simp [List.length_take]
    omega
  have hcap : max_results ≤ (acc ++ p.dedup.take (max_results - acc.length)).length :=
    le_of_eq hlen.symm
  rw [crawlPagesLoop_process_step _ _ _ _ _ _ h1 hmax hacc, hfilter]
  cases rest with
  | nil =>
    constructor
    · rfl
    · simpa using hlen
  | cons q rest2 =>
    have h1' : ¬ currentPage + 1 < start_page := by omega
    simp only [List.isEmpty_cons, if_false, Bool.false_eq_true]
    rw [crawlPagesLoop_cap_reached _ _ _ _ _ h1' hmax hcap]
    exact ⟨rfl, hlen⟩

/-- C7, witness: `max_results = 5`, one page of 8 fresh ids followed by
another page — exactly 5 ids are accumulated and the later page is never
consulted. -/
theorem C7_pagination_truncation_witness :
    (crawlPagesLoop 5 1 (-1) [["a", "b", "c", "d", "e", "f", "g", "h"], ["x"]]
        1 []).1 = ["a", "b", "c", "d", "e"] ∧
    (crawlPagesLoop 5 1 (-1) [["a", "b", "c", "d", "e", "f", "g", "h"], ["x"]]
        1 []).1.length = 5 := by
  have h := C7_pagination_truncation 5 1 1 [] ["a", "b", "c", "d", "e", "f", "g", "h"]
    [["x"]] (by decide) (by decide) (by decide) (by decide) (by decide)
  refine ⟨?_, h.2⟩
  rw [h.1]
  decide

end WhatToEat
